import Mathlib

/-!
# Verification of the Luxury Hijabi client-side commerce state layer

Shallow embedding of the persistent stores of the repository
(`cartStore.js`, `authStore.js`, `favoritesStore.js`, `useTheme.js`,
`Profile.jsx`, `Orders.jsx`).  Browser storage is modelled by explicit
state records; JavaScript numbers are modelled by `Rat` (the arithmetic
the claims speak about is exact); JavaScript strings by `String`, with
`jsLower`/`jsTrim` modelling `toLowerCase()`/`trim()` on the ASCII range
the store handles.
-/

/-- ASCII lowercasing of one character, as `String.prototype.toLowerCase`
acts on the ASCII range. -/
def jsCharLower (c : Char) : Char :=
  if 65 ≤ c.toNat ∧ c.toNat ≤ 90 then Char.ofNat (c.toNat + 32) else c

/-- `s.toLowerCase()` (ASCII range). -/
def jsLower (s : String) : String :=
  ⟨s.data.map jsCharLower⟩

/-- `s.trim()`: strip leading and trailing whitespace. -/
def jsTrim (s : String) : String :=
  ⟨(s.data.dropWhile Char.isWhitespace).reverse.dropWhile Char.isWhitespace |>.reverse⟩

/-! ## Cart & Order Store — `src/src/utils/cartStore.js` -/

/-- A product as passed to `CartStore.addItem`:
`{ id, name, price, image, deliveryDate?, shippingCost? }`
(the last two fields may be absent). -/
structure Product where
  id : String
  name : String
  price : Rat
  image : String
  deliveryDate : Option String
  shippingCost : Option Rat
deriving DecidableEq, Repr

/-- One cart line as persisted under `lh_cart_v1`. -/
structure CartLine where
  id : String
  name : String
  price : Rat
  image : String
  deliveryDate : String
  shippingCost : Rat
  qty : Int
deriving DecidableEq, Repr

/-- One order as persisted under `lh_orders_v1`. -/
structure Order where
  id : String
  datePlaced : String
  total : Rat
  items : List CartLine
deriving DecidableEq, Repr

/-- The storage owned by `cartStore.js`: the cart (`lh_cart_v1`) and the
order history (`lh_orders_v1`). -/
structure CartState where
  cart : List CartLine
  orders : List Order
deriving DecidableEq, Repr

namespace CartStore

/-- `qty = parseInt(qty, 10) || 1`: `parseInt` yields an integer or `NaN`
(modelled as `Option Int`); `|| 1` replaces the falsy results `NaN` and
`0` by `1` and keeps every other integer, negative ones included. -/
def coerceQty : Option Int → Int
  | none => 1
  | some n => if n = 0 then 1 else n

/-- `x || d` on a possibly-absent string: absent and `""` are falsy. -/
def jsOrElse (v : Option String) (d : String) : String :=
  match v with
  | none => d
  | some s => if s = "" then d else s

/-- The in-place `existing.qty += qty` performed on the line returned by
`items.find((i) => i.id === product.id)`: only the first line with a
matching id is bumped. -/
def bumpFirst (pid : String) (qty : Int) : List CartLine → List CartLine
  | [] => []
  | i :: rest =>
    if i.id = pid then { i with qty := i.qty + qty } :: rest
    else i :: bumpFirst pid qty rest

/-- `CartStore.addItem(product, qty = 1)` (cartStore.js lines 45–64),
acting on the loaded cart array. -/
def addItem (items : List CartLine) (product : Product) (rawQty : Option Int) :
    List CartLine :=
  let qty := coerceQty rawQty
  if items.any (fun i => i.id = product.id) then
    bumpFirst product.id qty items
  else
    items ++ [{ id := product.id
                name := product.name
                price := product.price
                image := product.image
                deliveryDate := jsOrElse product.deliveryDate "Monday, March 2"
                shippingCost := product.shippingCost.getD 0
                qty := qty }]

/-- `CartStore.updateQty(id, qty)` (cartStore.js lines 66–72). -/
def updateQty (items : List CartLine) (id : String) (rawQty : Option Int) :
    List CartLine :=
  let qty := coerceQty rawQty
  items.map (fun item => if item.id = id then { item with qty := qty } else item)

/-- `CartStore.removeItem(id)` (cartStore.js lines 74–76). -/
def removeItem (items : List CartLine) (id : String) : List CartLine :=
  items.filter (fun item => item.id ≠ id)

/-- `deliveryOverrides[item.id] !== undefined ? deliveryOverrides[item.id]
: item.shippingCost`. -/
def effShipping (overrides : String → Option Rat) (item : CartLine) : Rat :=
  match overrides item.id with
  | some v => v
  | none => item.shippingCost

/-- `CartStore.placeOrder(deliveryOverrides)` (cartStore.js lines 82–129).
The random order id and the current-date label are environment inputs. -/
def placeOrder (s : CartState) (overrides : String → Option Rat)
    (orderId dateLabel : String) : CartState :=
  let items := s.cart
  if items = [] then s
  else
    let subtotal := items.foldl
      (fun sum item => sum + item.price * (item.qty : Rat) + effShipping overrides item) 0
    let order : Order :=
      { id := orderId
        datePlaced := dateLabel
        total := subtotal * (11 / 10 : Rat)
        items := items.map
          (fun item => { item with shippingCost := effShipping overrides item }) }
    { cart := [], orders := order :: s.orders }

/-- `CartStore.clear()` (cartStore.js line 131): `save([])` writes the
empty array to the cart key `lh_cart_v1`. -/
def clear (s : CartState) : CartState :=
  { s with cart := [] }

/-- `CartStore.getOrders()` (cartStore.js lines 133–140). -/
def getOrders (s : CartState) : List Order :=
  s.orders

/-- `CartStore.getItems()` (cartStore.js line 36). -/
def getItems (s : CartState) : List CartLine :=
  s.cart

/-- `handleConfirmClear` in `src/src/components/Orders.jsx` (line 245):
the Orders page's confirmed reset removes the order-history key via
`localStorage.removeItem(ORDERS_KEY)`. -/
def ordersPageConfirmClear (s : CartState) : CartState :=
  { s with orders := [] }

end CartStore

/-! ## Session/Account Store — `authStore.js` (src/unnamed/part_000) -/

/-- An account as stored in the `lh_users_v1` array. -/
structure Account where
  id : String
  username : String
  email : String
  password : String
deriving DecidableEq, Repr

/-- The session record written by `saveSession`: safe fields only. -/
structure Session where
  id : String
  username : String
  email : String
deriving DecidableEq, Repr

/-- The storage owned by `authStore.js`: the users array (`lh_users_v1`)
and the current session (`lh_session_v1`). -/
structure AuthState where
  users : List Account
  session : Option Session
deriving DecidableEq, Repr

namespace AuthStore

/-- `saveSession(user)` (authStore.js lines 43–52): stores only the safe
fields of the account. -/
def sessionOf (u : Account) : Session :=
  { id := u.id, username := u.username, email := u.email }

/-- The discriminated result `{success:true, user}` /
`{success:false, error}` returned by `register` and `login`. -/
inductive AuthResult where
  | ok (user : Account)
  | err (msg : String)
deriving DecidableEq, Repr

/-- `AuthStore.register({username, email, password})` (authStore.js lines
72–109).  The generated id `user-${Date.now()}` is an environment
input. -/
def register (s : AuthState) (username email password : String)
    (newId : String) : AuthResult × AuthState :=
  if username = "" ∨ email = "" ∨ password = "" then
    (.err "All fields are required.", s)
  else if s.users.any (fun u => jsLower u.email == jsLower email) then
    (.err "An account with this email already exists.", s)
  else if s.users.any (fun u => jsLower u.username == jsLower username) then
    (.err "This username is already taken.", s)
  else
    let newUser : Account :=
      { id := newId
        username := jsTrim username
        email := jsLower (jsTrim email)
        password := password }
    (.ok newUser,
      { users := s.users ++ [newUser], session := some (sessionOf newUser) })

/-- `AuthStore.login({identifier, password})` (authStore.js lines
117–143): the identifier is matched against the stored email exactly
(after lowercasing the identifier) or the username case-insensitively. -/
def login (s : AuthState) (identifier password : String) :
    AuthResult × AuthState :=
  if identifier = "" ∨ password = "" then
    (.err "Please fill in all fields.", s)
  else
    match s.users.find? (fun u =>
        u.email == jsLower identifier || jsLower u.username == jsLower identifier) with
    | none => (.err "No account found with that email or username.", s)
    | some user =>
      if user.password ≠ password then
        (.err "Incorrect password. Please try again.", s)
      else
        (.ok user, { s with session := some (sessionOf user) })

/-- `AuthStore.logout()` (authStore.js lines 146–150). -/
def logout (s : AuthState) : AuthState :=
  { s with session := none }

/-- `AuthStore.getCurrentUser()` (authStore.js line 62). -/
def getCurrentUser (s : AuthState) : Option Session :=
  s.session

/-- `AuthStore.isLoggedIn()` (authStore.js line 65). -/
def isLoggedIn (s : AuthState) : Bool :=
  s.session.isSome

end AuthStore

/-- Outcome of the Profile page's password-change submit: the error
banners and the success banner it can set. -/
inductive PwChangeResult where
  | tooShort
  | mismatchedConfirm
  | wrongCurrent
  | changed
deriving DecidableEq, Repr

/-- `handleChangePassword` in `src/src/components/Profile.jsx` (lines
46–77): the demo in-session password change.  It validates the new
password, then reads the `lh_users_v1` array directly, verifies the
entered current password against the stored record found by the session
user's id (`!stored` and a password mismatch show the same error), and
on success rewrites the array with only that account's password
replaced. -/
def handleChangePassword (users : List Account) (userId : String)
    (currentPw newPw confirmPw : String) : PwChangeResult × List Account :=
  if newPw.length < 6 then
    (.tooShort, users)
  else if newPw ≠ confirmPw then
    (.mismatchedConfirm, users)
  else
    match users.find? (fun u => u.id == userId) with
    | none => (.wrongCurrent, users)
    | some stored =>
      if stored.password ≠ currentPw then
        (.wrongCurrent, users)
      else
        (.changed,
          users.map (fun u =>
            if u.id = userId then { u with password := newPw } else u))

/-! ## Favorites Store — `src/src/utils/favoritesStore.js` -/

/-- One favorites entry: `{...product, favoritedAt: Date.now()}`. -/
structure FavEntry where
  product : Product
  favoritedAt : Int
deriving DecidableEq, Repr

/-- The spread in `{...product, favoritedAt}` copies `product.id` into
the entry, so `item.id` reads the product's id. -/
def FavEntry.id (e : FavEntry) : String :=
  e.product.id

/-- The storage read by `favoritesStore.js`: the session it reaches via
`AuthStore.getCurrentUser()` plus the `lh_favorites_v1_${user.id}` keys,
modelled as a map from key to stored array. -/
structure FavState where
  session : Option Session
  store : String → List FavEntry

namespace FavoritesStore

/-- `getFavKey()` (favoritesStore.js lines 14–17). -/
def getFavKey (s : FavState) : Option String :=
  match s.session with
  | some user => some ("lh_favorites_v1_" ++ user.id)
  | none => none

/-- `loadFavorites()` (favoritesStore.js lines 19–28): without a key the
read returns the empty list. -/
def loadFavorites (s : FavState) : List FavEntry :=
  match getFavKey s with
  | none => []
  | some k => s.store k

/-- `saveFavorites(items)` (favoritesStore.js lines 30–36): without a key
the write is a no-op. -/
def saveFavorites (s : FavState) (items : List FavEntry) : FavState :=
  match getFavKey s with
  | none => s
  | some k => { s with store := fun k2 => if k2 = k then items else s.store k2 }

/-- `FavoritesStore.getItems()` (favoritesStore.js line 40). -/
def getItems (s : FavState) : List FavEntry :=
  loadFavorites s

/-- `FavoritesStore.isFavorited(productId)` (favoritesStore.js lines
49–51). -/
def isFavorited (s : FavState) (productId : String) : Bool :=
  (loadFavorites s).any (fun item => item.id == productId)

/-- `FavoritesStore.toggle(product)` (favoritesStore.js lines 76–87):
returns `true` if the item was added, `false` if removed; `Date.now()`
is an environment input. -/
def toggle (s : FavState) (product : Product) (now : Int) : Bool × FavState :=
  let items := loadFavorites s
  if items.any (fun i => i.id == product.id) then
    (false, saveFavorites s (items.filter (fun i => i.id ≠ product.id)))
  else
    (true, saveFavorites s (items ++ [{ product := product, favoritedAt := now }]))

end FavoritesStore

/-! ## Theme store — `src/src/utils/useTheme.js` -/

/-- The theme subsystem state: the persisted `lh_theme_v1` value, the
module-level `_isDark` flag, the OS `prefers-color-scheme: dark` media
query, and a ghost flag recording whether an explicit user choice
(`toggleTheme`) has ever been made. -/
structure ThemeState where
  stored : Option String
  isDark : Bool
  osDark : Bool
  userChose : Bool
deriving DecidableEq, Repr

namespace ThemeStore

/-- `resolveInitialTheme()` (useTheme.js lines 26–35). -/
def resolveInitialTheme (s : ThemeState) : Bool :=
  match s.stored with
  | some v => if v = "dark" then true else if v = "light" then false else s.osDark
  | none => s.osDark

/-- `applyTheme(isDark)` (useTheme.js lines 37–44): persists `"dark"` or
`"light"` under the theme key and updates `_isDark`.  Not an explicit
user choice by itself, so the ghost flag is untouched. -/
def applyTheme (s : ThemeState) (isDark : Bool) : ThemeState :=
  { s with stored := some (if isDark then "dark" else "light"), isDark := isDark }

/-- Module load (useTheme.js lines 23 and 47):
`let _isDark = resolveInitialTheme()` followed by `applyTheme(_isDark)`. -/
def moduleInit (s : ThemeState) : ThemeState :=
  applyTheme s (resolveInitialTheme s)

/-- `!!localStorage.getItem(THEME_KEY)` (useTheme.js line 54): a present,
non-empty string is truthy. -/
def hasManualChoice (s : ThemeState) : Bool :=
  match s.stored with
  | none => false
  | some v => v ≠ ""

/-- The `change` listener on `prefers-color-scheme: dark` (useTheme.js
lines 50–57): auto-switch only when the theme key holds nothing. -/
def osChange (s : ThemeState) (osMatches : Bool) : ThemeState :=
  let s2 := { s with osDark := osMatches }
  if hasManualChoice s2 then s2 else applyTheme s2 osMatches

/-- `toggleTheme()` (useTheme.js lines 82–84): the explicit user choice;
the ghost flag records it. -/
def toggleTheme (s : ThemeState) : ThemeState :=
  { applyTheme s (!s.isDark) with userChose := true }

end ThemeStore

/-! ## Invariants and concrete sample data -/

/-- The cart invariant: `productId` is unique within the cart. -/
def uniqueIds (items : List CartLine) : Prop :=
  (items.map CartLine.id).Nodup

/-- The account-store invariant: usernames and emails are each unique
across all stored accounts, compared case-insensitively. -/
def accountsUnique (users : List Account) : Prop :=
  (users.map (fun u => jsLower u.username)).Nodup ∧
    (users.map (fun u => jsLower u.email)).Nodup

/-- The cart line of the spec's checkout scenario:
`{id:"p1", price:10, qty:2, shippingCost:5}`. -/
def wLine : CartLine :=
  { id := "p1", name := "Hijab", price := 10, image := ""
    deliveryDate := "Monday, March 2", shippingCost := 5, qty := 2 }

/-- A pre-existing order used to exercise the order history. -/
def wOrder : Order :=
  { id := "o0", datePlaced := "May 1", total := 27.5, items := [wLine] }

/-- A sample product (no delivery date, shipping cost 5). -/
def wP : Product :=
  { id := "p1", name := "Hijab", price := 10, image := ""
    deliveryDate := none, shippingCost := some 5 }

/-- A pre-existing account. -/
def wBob : Account :=
  { id := "u0", username := "bob", email := "bob@x.com", password := "pw1" }

/-- The spec's registration-scenario account, as `register` stores it. -/
def wAmina : Account :=
  { id := "u0", username := "amina", email := "a@x.com", password := "secret1" }

/-- A favorites state with no session (a guest). -/
def guestFav : FavState :=
  { session := none, store := fun _ => [] }

/-- A favorites state for a logged-in user whose favorites are empty. -/
def userFav : FavState :=
  { session := some { id := "u0", username := "amina", email := "a@x.com" }
    store := fun _ => [] }

/-! ## Shared lemmas -/

theorem jsCharLower_toNat (c : Char) (h : 65 ≤ c.toNat ∧ c.toNat ≤ 90) :
    (jsCharLower c).toNat = c.toNat + 32 := by
  rw [jsCharLower, if_pos h]
  have hv : Nat.isValidChar (c.toNat + 32) := by
    left
    omega
  unfold Char.ofNat
  rw [dif_pos hv]
  rfl

theorem jsCharLower_idem (c : Char) : jsCharLower (jsCharLower c) = jsCharLower c := by
  by_cases h : 65 ≤ c.toNat ∧ c.toNat ≤ 90
  · have h2 := jsCharLower_toNat c h
    conv_lhs => rw [jsCharLower]
    rw [if_neg (by omega)]
  · simp only [jsCharLower, if_neg h]

theorem jsLower_idem (s : String) : jsLower (jsLower s) = jsLower s := by
  simp [jsLower, List.map_map]
  congr 1
  exact List.map_congr_left (fun c _ => jsCharLower_idem c)

theorem foldl_price_ship (ov : String → Option Rat) :
    ∀ (l : List CartLine) (a : Rat),
      l.foldl (fun sum item =>
          sum + item.price * (item.qty : Rat) + CartStore.effShipping ov item) a =
        a + (l.map (fun i => i.price * (i.qty : Rat))).sum +
          (l.map (CartStore.effShipping ov)).sum
  | [], a => by simp
  | i :: rest, a => by
    simp only [List.foldl_cons, List.map_cons, List.sum_cons,
      foldl_price_ship ov rest]
    ring

/-- C1: `placeOrder` on an empty cart leaves the state unchanged; on a
non-empty cart it empties the cart and prepends to the order history one
order whose item list is the pre-order cart with each line's shipping
cost replaced by the effective (override-or-own) shipping cost, and whose
total is `(Σ price·qty + Σ effective shipping) · 1.10`. -/
theorem placeOrder_spec (s : CartState) (ov : String → Option Rat)
    (oid dl : String) :
    (s.cart = [] → CartStore.placeOrder s ov oid dl = s) ∧
    (s.cart ≠ [] →
      (CartStore.placeOrder s ov oid dl).cart = [] ∧
      (CartStore.placeOrder s ov oid dl).orders =
        { id := oid
          datePlaced := dl
          total := ((s.cart.map (fun i => i.price * (i.qty : Rat))).sum +
              (s.cart.map (CartStore.effShipping ov)).sum) * (11 / 10 : Rat)
          items := s.cart.map
            (fun i => { i with shippingCost := CartStore.effShipping ov i }) }
          :: s.orders) := by
  constructor
  · intro h
    simp [CartStore.placeOrder, h]
  · intro h
    refine ⟨by simp [CartStore.placeOrder, if_neg h], ?_⟩
    simp [CartStore.placeOrder, if_neg h, foldl_price_ship ov s.cart 0]

/-- Witness for `placeOrder_spec`: the spec's checkout scenario
(`total = (10·2+5)·1.10 = 27.5`) and an empty-cart call. -/
theorem placeOrder_spec_witness :
    CartStore.placeOrder ⟨[], [wOrder]⟩ (fun _ => none) "o1" "May 5" = ⟨[], [wOrder]⟩ ∧
    [wLine] ≠ ([] : List CartLine) ∧
    (CartStore.placeOrder ⟨[wLine], []⟩ (fun _ => none) "o1" "May 5").cart = [] ∧
    (CartStore.placeOrder ⟨[wLine], []⟩ (fun _ => none) "o1" "May 5").orders =
      [{ id := "o1", datePlaced := "May 5", total := 27.5
         items := [{ wLine with shippingCost := 5 }] }] := by
  refine ⟨(placeOrder_spec ⟨[], [wOrder]⟩ (fun _ => none) "o1" "May 5").1 rfl,
    by decide, ((placeOrder_spec ⟨[wLine], []⟩ (fun _ => none) "o1" "May 5").2 (by decide)).1, ?_⟩
  have h := ((placeOrder_spec ⟨[wLine], []⟩ (fun _ => none) "o1" "May 5").2 (by decide)).2
  rw [h]
  simp [wLine, CartStore.effShipping]
  norm_num


theorem bumpFirst_map_id (pid : String) (q : Int) :
    ∀ l : List CartLine,
      (CartStore.bumpFirst pid q l).map CartLine.id = l.map CartLine.id
  | [] => rfl
  | i :: rest => by
    by_cases h : i.id = pid
    · simp [CartStore.bumpFirst, h]
    · simp [CartStore.bumpFirst, h, bumpFirst_map_id pid q rest]

theorem bumpFirst_append_not_mem (pid : String) (q : Int) :
    ∀ (l1 l2 : List CartLine), (∀ i ∈ l1, i.id ≠ pid) →
      CartStore.bumpFirst pid q (l1 ++ l2) = l1 ++ CartStore.bumpFirst pid q l2
  | [], _, _ => rfl
  | i :: rest, l2, h => by
    have hi : i.id ≠ pid := h i (by simp)
    simp [CartStore.bumpFirst, hi,
      bumpFirst_append_not_mem pid q rest l2 (fun j hj => h j (by simp [hj]))]

theorem filter_id_eq_nil (pid : String) (items : List CartLine)
    (h : pid ∉ items.map CartLine.id) :
    items.filter (fun i => i.id == pid) = [] := by
  rw [List.filter_eq_nil_iff]
  intro i hi
  simp only [beq_iff_eq]
  exact fun he => h (List.mem_map.mpr ⟨i, hi, he⟩)

theorem addItem_not_mem_ex (items : List CartLine) (p : Product) (rq : Option Int)
    (h : ∀ i ∈ items, i.id ≠ p.id) :
    ∃ l : CartLine, CartStore.addItem items p rq = items ++ [l] ∧
      l.id = p.id ∧ l.qty = CartStore.coerceQty rq := by
  have hany : (items.any fun i => i.id = p.id) = false := by
    rw [List.any_eq_false]
    intro i hi
    simpa using h i hi
  simp only [CartStore.addItem, hany, Bool.false_eq_true, if_false]
  exact ⟨_, rfl, rfl, rfl⟩

theorem addItem_mem_step (items : List CartLine) (l : CartLine) (p : Product)
    (rq : Option Int) (hall : ∀ i ∈ items, i.id ≠ p.id) (hl : l.id = p.id) :
    CartStore.addItem (items ++ [l]) p rq =
      items ++ [{ l with qty := l.qty + CartStore.coerceQty rq }] := by
  have hany : ((items ++ [l]).any fun i => i.id = p.id) = true := by
    simp [List.any_append, hl]
  simp only [CartStore.addItem, hany, if_true]
  rw [bumpFirst_append_not_mem p.id _ items [l] hall]
  simp [CartStore.bumpFirst, hl]

/-- C2: every cart operation (`addItem`, `updateQty`, `removeItem`,
`placeOrder`, `clear`) preserves uniqueness of product ids in the cart,
and adding the same product twice (quantities `q, q2 ≥ 1`) to a cart not
containing it yields exactly one line for that product id, with quantity
`q + q2`. -/
theorem cart_invariant_spec (items : List CartLine) (p : Product)
    (pid : String) (rq : Option Int) (s : CartState)
    (ov : String → Option Rat) (oid dl : String) (q q2 : Int)
    (h : uniqueIds items) (hs : uniqueIds s.cart)
    (hq : 1 ≤ q) (hq2 : 1 ≤ q2) :
    uniqueIds (CartStore.addItem items p rq) ∧
    uniqueIds (CartStore.updateQty items pid rq) ∧
    uniqueIds (CartStore.removeItem items pid) ∧
    uniqueIds (CartStore.placeOrder s ov oid dl).cart ∧
    uniqueIds (CartStore.clear s).cart ∧
    (p.id ∉ items.map CartLine.id →
      ((CartStore.addItem (CartStore.addItem items p (some q)) p (some q2)).filter
          (fun i => i.id == p.id)).map CartLine.qty = [q + q2] ∧
      ((CartStore.addItem (CartStore.addItem items p (some q)) p (some q2)).filter
          (fun i => i.id == p.id)).length = 1) := by
  unfold uniqueIds at h hs ⊢
  refine ⟨?_, ?_, ?_, ?_, ?_, ?_⟩
  · by_cases hc : (items.any fun i => i.id = p.id) = true
    · simp only [CartStore.addItem, hc, if_true, bumpFirst_map_id]
      exact h
    · have hall : ∀ i ∈ items, i.id ≠ p.id := by
        rw [Bool.not_eq_true, List.any_eq_false] at hc
        intro i hi
        simpa using hc i hi
      obtain ⟨l, he, hid, _⟩ := addItem_not_mem_ex items p rq hall
      rw [he, List.map_append, List.nodup_append]
      refine ⟨h, by simp, ?_⟩
      intro a ha hb
      simp only [List.map_cons, List.map_nil, List.mem_singleton] at hb
      obtain ⟨i, hi, hie⟩ := List.mem_map.mp ha
      exact hall i hi (by rw [hie, hb, hid])
  · have h2 : (CartStore.updateQty items pid rq).map CartLine.id =
        items.map CartLine.id := by
      simp only [CartStore.updateQty, List.map_map]
      refine List.map_congr_left (fun i _ => ?_)
      by_cases hii : i.id = pid <;> simp [Function.comp, hii]
    rw [h2]
    exact h
  · exact ((List.filter_sublist _).map CartLine.id).nodup h
  · by_cases hc : s.cart = []
    · simpa [CartStore.placeOrder, hc] using hs
    · simp [CartStore.placeOrder, hc]
  · simp [CartStore.clear]
  · intro hnm
    have hall : ∀ i ∈ items, i.id ≠ p.id :=
      fun i hi he => hnm (List.mem_map.mpr ⟨i, hi, he⟩)
    have hcq : CartStore.coerceQty (some q) = q := by
      simp [CartStore.coerceQty, show q ≠ 0 by omega]
    have hcq2 : CartStore.coerceQty (some q2) = q2 := by
      simp [CartStore.coerceQty, show q2 ≠ 0 by omega]
    obtain ⟨l, he1, hid1, hqty1⟩ := addItem_not_mem_ex items p (some q) hall
    rw [he1, addItem_mem_step items l p (some q2) hall hid1, List.filter_append,
      filter_id_eq_nil p.id items hnm]
    simp [hid1, hqty1, hcq, hcq2]

/-- Witness for `cart_invariant_spec`: the empty cart, the sample
product, quantities 2 and 3. -/
theorem cart_invariant_spec_witness :
    uniqueIds ([] : List CartLine) ∧ (1 : Int) ≤ 2 ∧ (1 : Int) ≤ 3 ∧
    (((CartStore.addItem (CartStore.addItem [] wP (some 2)) wP (some 3)).filter
        (fun i => i.id == wP.id)).map CartLine.qty = [2 + 3] ∧
      ((CartStore.addItem (CartStore.addItem [] wP (some 2)) wP (some 3)).filter
        (fun i => i.id == wP.id)).length = 1) := by
  refine ⟨by unfold uniqueIds; decide, by decide, by decide, ?_⟩
  exact (cart_invariant_spec [] wP "x" none ⟨[], []⟩ (fun _ => none) "" "" 2 3
    (by unfold uniqueIds; decide) (by unfold uniqueIds; decide)
    (by decide) (by decide)).2.2.2.2.2 (by decide)

/-- C3: `register` fails with the validation error when any field is
empty; otherwise it fails with the email-conflict error when the email
matches an existing account case-insensitively (regardless of the
username), and only past that check fails with the username-conflict
error when the username matches an existing account case-insensitively.
In all three cases the state is unchanged. -/
theorem register_error_spec (s : AuthState) (username email password newId : String) :
    ((username = "" ∨ email = "" ∨ password = "") →
      AuthStore.register s username email password newId =
        (.err "All fields are required.", s)) ∧
    (username ≠ "" → email ≠ "" → password ≠ "" →
      (∃ u ∈ s.users, jsLower u.email = jsLower email) →
      AuthStore.register s username email password newId =
        (.err "An account with this email already exists.", s)) ∧
    (username ≠ "" → email ≠ "" → password ≠ "" →
      (∀ u ∈ s.users, jsLower u.email ≠ jsLower email) →
      (∃ u ∈ s.users, jsLower u.username = jsLower username) →
      AuthStore.register s username email password newId =
        (.err "This username is already taken.", s)) := by
  refine ⟨?_, ?_, ?_⟩
  · intro h
    simp [AuthStore.register, h]
  · intro h1 h2 h3 ⟨u, hu, he⟩
    have hany : (s.users.any fun u => jsLower u.email == jsLower email) = true := by
      rw [List.any_eq_true]
      exact ⟨u, hu, by simp [he]⟩
    simp [AuthStore.register, h1, h2, h3, hany]
  · intro h1 h2 h3 hne ⟨u, hu, hn⟩
    have hanye : (s.users.any fun u => jsLower u.email == jsLower email) = false := by
      rw [List.any_eq_false]
      intro v hv
      simpa using hne v hv
    have hanyu : (s.users.any fun u => jsLower u.username == jsLower username) = true := by
      rw [List.any_eq_true]
      exact ⟨u, hu, by simp [hn]⟩
    simp [AuthStore.register, h1, h2, h3, hanye, hanyu]

/-- Witness for `register_error_spec`: the spec's scenario — after
`amina` registered with email `a@x.com`, registering `{username:"bob",
email:"A@x.com"}` hits the email conflict. -/
theorem register_error_spec_witness :
    "bob" ≠ "" ∧ "A@x.com" ≠ "" ∧ "pw2" ≠ "" ∧
    (∃ u ∈ [wAmina], jsLower u.email = jsLower "A@x.com") ∧
    AuthStore.register ⟨[wAmina], none⟩ "bob" "A@x.com" "pw2" "u1" =
      (.err "An account with this email already exists.", ⟨[wAmina], none⟩) := by
  refine ⟨by decide, by decide, by decide, ⟨wAmina, by decide, by decide⟩, ?_⟩
  exact (register_error_spec ⟨[wAmina], none⟩ "bob" "A@x.com" "pw2" "u1").2.1
    (by decide) (by decide) (by decide) ⟨wAmina, by decide, by decide⟩

theorem register_success_ex (s : AuthState) (username email password newId : String)
    (hu : username ≠ "") (he : email ≠ "") (hp : password ≠ "")
    (hanye : (s.users.any fun u => jsLower u.email == jsLower email) = false)
    (hanyu : (s.users.any fun u => jsLower u.username == jsLower username) = false) :
    ∃ nu, AuthStore.register s username email password newId =
        (.ok nu, ⟨s.users ++ [nu], some (AuthStore.sessionOf nu)⟩) ∧
      nu.username = jsTrim username ∧ nu.email = jsLower (jsTrim email) ∧
      nu.password = password := by
  rw [AuthStore.register, if_neg (by simp [hu, he, hp]),
    if_neg (by simp [hanye]), if_neg (by simp [hanyu])]
  exact ⟨_, rfl, rfl, rfl, rfl⟩

/-- C4 counterexample: registered credentials do not always
authenticate.  (a) With an existing account whose email is `bob@x.com`,
registering username `Bob@x.com` (email `new@y.com`) succeeds, but a
login with that same username and password hits the older account via
login's email match and fails with the wrong-password error.  (b)
Registering with the email `" a@x.com"` (leading space) succeeds — the
stored email is trimmed — but a login with that same email string finds
no account. -/
theorem register_login_roundtrip_cex :
    ((AuthStore.register ⟨[wBob], none⟩ "Bob@x.com" "new@y.com" "pw2" "u1").1 =
        .ok { id := "u1", username := "Bob@x.com", email := "new@y.com", password := "pw2" } ∧
      (AuthStore.login (AuthStore.register ⟨[wBob], none⟩ "Bob@x.com" "new@y.com" "pw2" "u1").2
          "Bob@x.com" "pw2").1 = .err "Incorrect password. Please try again.") ∧
    ((AuthStore.register ⟨[], none⟩ "amina" " a@x.com" "secret1" "u2").1 =
        .ok { id := "u2", username := "amina", email := "a@x.com", password := "secret1" } ∧
      (AuthStore.login (AuthStore.register ⟨[], none⟩ "amina" " a@x.com" "secret1" "u2").2
          " a@x.com" "secret1").1 = .err "No account found with that email or username.") := by
  decide

/-- C4 (amended): `register` followed by `login` with the same email or
the same username and the same password succeeds, provided the username
and email carry no surrounding whitespace and do not collide — under
login's identifier matching — with any account present before
registration (no stored email equal to the lowercased username or email,
no stored username case-insensitively equal to them). -/
theorem register_login_roundtrip (s : AuthState) (username email password newId : String)
    (hu : username ≠ "") (he : email ≠ "") (hp : password ≠ "")
    (htu : jsTrim username = username) (hte : jsTrim email = email)
    (hne : ∀ u ∈ s.users, jsLower u.email ≠ jsLower email)
    (hnu : ∀ u ∈ s.users, jsLower u.username ≠ jsLower username)
    (hx1 : ∀ u ∈ s.users, jsLower u.username ≠ jsLower email)
    (hx2 : ∀ u ∈ s.users, u.email ≠ jsLower username) :
    ∃ nu s1, AuthStore.register s username email password newId = (.ok nu, s1) ∧
      nu.password = password ∧
      (AuthStore.login s1 email password).1 = .ok nu ∧
      (AuthStore.login s1 username password).1 = .ok nu := by
  have hanye : (s.users.any fun u => jsLower u.email == jsLower email) = false := by
    rw [List.any_eq_false]
    intro u hu2
    simpa using hne u hu2
  have hanyu : (s.users.any fun u => jsLower u.username == jsLower username) = false := by
    rw [List.any_eq_false]
    intro u hu2
    simpa using hnu u hu2
  obtain ⟨nu, hreg, hnuu, hnue, hnup⟩ :=
    register_success_ex s username email password newId hu he hp hanye hanyu
  have hnue2 : nu.email = jsLower email := by rw [hnue, hte]
  have hnuu2 : jsLower nu.username = jsLower username := by rw [hnuu, htu]
  refine ⟨nu, ⟨s.users ++ [nu], some (AuthStore.sessionOf nu)⟩, hreg, hnup, ?_, ?_⟩
  · have hfind : ((s.users ++ [nu]).find? fun u =>
        u.email == jsLower email || jsLower u.username == jsLower email) = some nu := by
      rw [List.find?_append]
      have h1 : (s.users.find? fun u =>
          u.email == jsLower email || jsLower u.username == jsLower email) = none := by
        rw [List.find?_eq_none]
        intro u hu2
        simp only [Bool.or_eq_true, beq_iff_eq, not_or]
        refine ⟨fun hcontra => hne u hu2 (by rw [hcontra, jsLower_idem]), hx1 u hu2⟩
      rw [h1]
      simp [List.find?_cons, hnue2]
    rw [AuthStore.login, if_neg (by simp [he, hp])]
    simp only [hfind]
    rw [if_neg (by simp [hnup])]
  · have hfind : ((s.users ++ [nu]).find? fun u =>
        u.email == jsLower username || jsLower u.username == jsLower username) = some nu := by
      rw [List.find?_append]
      have h1 : (s.users.find? fun u =>
          u.email == jsLower username || jsLower u.username == jsLower username) = none := by
        rw [List.find?_eq_none]
        intro u hu2
        simp only [Bool.or_eq_true, beq_iff_eq, not_or]
        exact ⟨hx2 u hu2, hnu u hu2⟩
      rw [h1]
      simp [List.find?_cons, hnuu2]
    rw [AuthStore.login, if_neg (by simp [hu, hp])]
    simp only [hfind]
    rw [if_neg (by simp [hnup])]

/-- Witness for `register_login_roundtrip`: registering `amina` next to
the unrelated stored account `bob` and logging back in with her email
and with her username. -/
theorem register_login_roundtrip_witness :
    ∃ nu s1, AuthStore.register ⟨[wBob], none⟩ "amina" "a@x.com" "secret1" "u1" =
        (.ok nu, s1) ∧
      nu.password = "secret1" ∧
      (AuthStore.login s1 "a@x.com" "secret1").1 = .ok nu ∧
      (AuthStore.login s1 "amina" "secret1").1 = .ok nu :=
  register_login_roundtrip ⟨[wBob], none⟩ "amina" "a@x.com" "secret1" "u1"
    (by decide) (by decide) (by decide) (by decide) (by decide)
    (by decide) (by decide) (by decide) (by decide)

/-- C5 counterexample: from the single-account list `[amina]` (which
satisfies the invariant), registering with email `" a@x.com"` (leading
space) passes the duplicate check — which compares the untrimmed
input — but stores the trimmed, lowercased `a@x.com`, duplicating
amina's email case-insensitively. -/
theorem register_unique_invariant_cex :
    accountsUnique [wAmina] ∧
    (AuthStore.register ⟨[wAmina], none⟩ "bob" " a@x.com" "pw2" "u1").1 =
      .ok { id := "u1", username := "bob", email := "a@x.com", password := "pw2" } ∧
    ¬ accountsUnique (AuthStore.register ⟨[wAmina], none⟩ "bob" " a@x.com" "pw2" "u1").2.users := by
  refine ⟨?_, ?_, ?_⟩
  · unfold accountsUnique
    decide
  · decide
  · unfold accountsUnique
    decide

/-- C5 (amended): provided the submitted username and email carry no
surrounding whitespace, every `register` call preserves the invariant
that usernames and emails are each unique across all stored accounts,
case-insensitively (failed calls leave the account list unchanged). -/
theorem register_unique_invariant (s : AuthState) (username email password newId : String)
    (htu : jsTrim username = username) (hte : jsTrim email = email)
    (h : accountsUnique s.users) :
    accountsUnique (AuthStore.register s username email password newId).2.users := by
  unfold accountsUnique at h ⊢
  by_cases h1 : username = "" ∨ email = "" ∨ password = ""
  · simpa [AuthStore.register, h1] using h
  · push_neg at h1
    obtain ⟨hu, he, hp⟩ := h1
    by_cases h2 : (s.users.any fun u => jsLower u.email == jsLower email) = true
    · simpa [AuthStore.register, hu, he, hp, h2] using h
    · by_cases h3 : (s.users.any fun u => jsLower u.username == jsLower username) = true
      · simpa [AuthStore.register, hu, he, hp, h2, h3] using h
      · rw [Bool.not_eq_true] at h2 h3
        obtain ⟨nu, hreg, hnuu, hnue, _⟩ :=
          register_success_ex s username email password newId hu he hp h2 h3
        rw [hreg]
        obtain ⟨hn1, hn2⟩ := h
        constructor
        · rw [List.map_append, List.nodup_append]
          refine ⟨hn1, by simp, ?_⟩
          intro a ha hb
          simp only [List.map_cons, List.map_nil, List.mem_singleton] at hb
          obtain ⟨u, hu2, hue⟩ := List.mem_map.mp ha
          rw [hb, hnuu, htu] at hue
          have hfalse := List.any_eq_false.mp h3 u hu2
          simp [hue] at hfalse
        · rw [List.map_append, List.nodup_append]
          refine ⟨hn2, by simp, ?_⟩
          intro a ha hb
          simp only [List.map_cons, List.map_nil, List.mem_singleton] at hb
          obtain ⟨u, hu2, hue⟩ := List.mem_map.mp ha
          rw [hb, hnue, hte, jsLower_idem] at hue
          have hfalse := List.any_eq_false.mp h2 u hu2
          simp [hue] at hfalse

/-- Witness for `register_unique_invariant`: registering `bob` next to
`amina`. -/
theorem register_unique_invariant_witness :
    accountsUnique (AuthStore.register ⟨[wAmina], none⟩ "bob" "b@x.com" "pw2" "u1").2.users :=
  register_unique_invariant ⟨[wAmina], none⟩ "bob" "b@x.com" "pw2" "u1"
    (by decide) (by decide) (by unfold accountsUnique; decide)

theorem saveFavorites_session (s : FavState) (items : List FavEntry) :
    (FavoritesStore.saveFavorites s items).session = s.session := by
  unfold FavoritesStore.saveFavorites
  cases hk : FavoritesStore.getFavKey s <;> rfl

theorem loadFavorites_saveFavorites (s : FavState) (items : List FavEntry)
    (hs : s.session.isSome) :
    FavoritesStore.loadFavorites (FavoritesStore.saveFavorites s items) = items := by
  obtain ⟨u, hu⟩ := Option.isSome_iff_exists.mp hs
  simp [FavoritesStore.saveFavorites, FavoritesStore.loadFavorites,
    FavoritesStore.getFavKey, hu]

theorem any_filter_id_ne (l : List FavEntry) (pid : String) :
    ((l.filter fun i => i.id ≠ pid).any fun i => i.id == pid) = false := by
  rw [List.any_eq_false]
  intro i hi
  have h2 := (List.mem_filter.mp hi).2
  simp only [decide_eq_true_eq] at h2
  simp [h2]

/-- C6 counterexample: (a) with no session, `toggle` returns `true` (the
add branch) but the product is not present afterwards — reads stay
empty — and a second toggle returns `true` again, not `false`; (b) with
a session and the product already favorited, the first of two successive
toggles returns `false`, not `true`. -/
theorem favorites_toggle_cex :
    (FavoritesStore.toggle guestFav wP 0).1 = true ∧
    FavoritesStore.getItems (FavoritesStore.toggle guestFav wP 0).2 = [] ∧
    FavoritesStore.isFavorited (FavoritesStore.toggle guestFav wP 0).2 wP.id = false ∧
    (FavoritesStore.toggle (FavoritesStore.toggle guestFav wP 0).2 wP 1).1 = true ∧
    (FavoritesStore.toggle (FavoritesStore.toggle userFav wP 0).2 wP 1).1 = false := by
  refine ⟨rfl, rfl, rfl, rfl, rfl⟩

/-- C6 (amended): with a session, `toggle(p)` returns `true` exactly when
`p` is present in the favorites read back after the call; from a state
where `p` is not favorited, two successive toggles return `true` then
`false`, with `isFavorited` matching the state after each call; with no
session, reads return the empty list and writes leave the state
unchanged, while `toggle` still reports the add branch (`true`). -/
theorem favorites_toggle_spec (s : FavState) (p : Product) (n1 n2 : Int)
    (hs : s.session.isSome) :
    ((FavoritesStore.toggle s p n1).1 = true ↔
      FavoritesStore.isFavorited (FavoritesStore.toggle s p n1).2 p.id = true) ∧
    (FavoritesStore.isFavorited s p.id = false →
      (FavoritesStore.toggle s p n1).1 = true ∧
      FavoritesStore.isFavorited (FavoritesStore.toggle s p n1).2 p.id = true ∧
      (FavoritesStore.toggle (FavoritesStore.toggle s p n1).2 p n2).1 = false ∧
      FavoritesStore.isFavorited
        (FavoritesStore.toggle (FavoritesStore.toggle s p n1).2 p n2).2 p.id = false) ∧
    (∀ g : FavState, g.session = none →
      FavoritesStore.getItems g = [] ∧
      (∀ items, FavoritesStore.saveFavorites g items = g) ∧
      (FavoritesStore.toggle g p n1).2 = g ∧ (FavoritesStore.toggle g p n1).1 = true) := by
  refine ⟨?_, ?_, ?_⟩
  · by_cases hb : ((FavoritesStore.loadFavorites s).any fun i => i.id == p.id) = true
    · have e1 : FavoritesStore.toggle s p n1 =
          (false, FavoritesStore.saveFavorites s
            ((FavoritesStore.loadFavorites s).filter fun i => i.id ≠ p.id)) := by
        simp [FavoritesStore.toggle, hb]
      have h2 : FavoritesStore.isFavorited (FavoritesStore.toggle s p n1).2 p.id = false := by
        show (FavoritesStore.loadFavorites (FavoritesStore.toggle s p n1).2).any
          (fun i => i.id == p.id) = false
        rw [e1, loadFavorites_saveFavorites _ _ hs, any_filter_id_ne]
      rw [h2, e1]
    · rw [Bool.not_eq_true] at hb
      have e1 : FavoritesStore.toggle s p n1 =
          (true, FavoritesStore.saveFavorites s
            (FavoritesStore.loadFavorites s ++ [{ product := p, favoritedAt := n1 }])) := by
        simp [FavoritesStore.toggle, hb]
      have h2 : FavoritesStore.isFavorited (FavoritesStore.toggle s p n1).2 p.id = true := by
        show (FavoritesStore.loadFavorites (FavoritesStore.toggle s p n1).2).any
          (fun i => i.id == p.id) = true
        rw [e1, loadFavorites_saveFavorites _ _ hs]
        simp [List.any_append, FavEntry.id]
      rw [h2, e1]
  · intro hfav
    have hb : ((FavoritesStore.loadFavorites s).any fun i => i.id == p.id) = false := hfav
    have e1 : FavoritesStore.toggle s p n1 =
        (true, FavoritesStore.saveFavorites s
          (FavoritesStore.loadFavorites s ++ [{ product := p, favoritedAt := n1 }])) := by
      simp [FavoritesStore.toggle, hb]
    set s2 := (FavoritesStore.toggle s p n1).2 with hs2def
    have hs2 : s2.session.isSome := by
      rw [hs2def, e1, saveFavorites_session]
      exact hs
    have hb2 : ((FavoritesStore.loadFavorites s2).any fun i => i.id == p.id) = true := by
      rw [hs2def, e1]
      show ((FavoritesStore.loadFavorites (FavoritesStore.saveFavorites s
        (FavoritesStore.loadFavorites s ++ [{ product := p, favoritedAt := n1 }]))).any
          fun i => i.id == p.id) = true
      rw [loadFavorites_saveFavorites _ _ hs]
      simp [List.any_append, FavEntry.id]
    have e2 : FavoritesStore.toggle s2 p n2 =
        (false, FavoritesStore.saveFavorites s2
          ((FavoritesStore.loadFavorites s2).filter fun i => i.id ≠ p.id)) := by
      simp [FavoritesStore.toggle, hb2]
    refine ⟨by rw [e1], hb2, by rw [e2], ?_⟩
    show (FavoritesStore.loadFavorites (FavoritesStore.toggle s2 p n2).2).any
      (fun i => i.id == p.id) = false
    rw [e2, loadFavorites_saveFavorites _ _ hs2, any_filter_id_ne]
  · intro g hg
    have hkey : FavoritesStore.getFavKey g = none := by
      simp [FavoritesStore.getFavKey, hg]
    have hload : FavoritesStore.loadFavorites g = [] := by
      simp [FavoritesStore.loadFavorites, hkey]
    have hsave : ∀ items, FavoritesStore.saveFavorites g items = g := by
      intro items
      simp [FavoritesStore.saveFavorites, hkey]
    refine ⟨hload, hsave, ?_, ?_⟩
    · simp [FavoritesStore.toggle, hload, hsave]
    · simp [FavoritesStore.toggle, hload]

/-- Witness for `favorites_toggle_spec`: a logged-in user with empty
favorites toggling the sample product twice. -/
theorem favorites_toggle_spec_witness :
    FavoritesStore.isFavorited userFav wP.id = false ∧
    (FavoritesStore.toggle userFav wP 0).1 = true ∧
    FavoritesStore.isFavorited (FavoritesStore.toggle userFav wP 0).2 wP.id = true ∧
    (FavoritesStore.toggle (FavoritesStore.toggle userFav wP 0).2 wP 1).1 = false ∧
    FavoritesStore.isFavorited
      (FavoritesStore.toggle (FavoritesStore.toggle userFav wP 0).2 wP 1).2 wP.id = false := by
  refine ⟨rfl, ?_⟩
  have h := (favorites_toggle_spec userFav wP 0 1 rfl).2.1 rfl
  exact ⟨h.1, h.2.1, h.2.2.1, h.2.2.2⟩

/-- C7 counterexample: `CartStore.clear()` writes the empty array to the
cart key only; with one order on file, `getOrders()` still returns it
after `clear()`, so `clear()` does not bulk-clear the order history. -/
theorem clear_orders_cex :
    CartStore.getOrders (CartStore.clear ⟨[wLine], [wOrder]⟩) = [wOrder] ∧
    [wOrder] ≠ ([] : List Order) := by
  exact ⟨rfl, by decide⟩

/-- C7 (amended): `CartStore.clear()` empties the cart and leaves the
order history untouched; existing orders are never mutated by any
cart-store operation — `placeOrder` only prepends (at most one new
order) — and the order history is bulk-cleared by the Orders page's
confirmed reset, which removes the orders key, after which `getOrders()`
returns the empty list. -/
theorem clear_cart_orders_frame (s : CartState) (ov : String → Option Rat)
    (oid dl : String) :
    (CartStore.clear s).cart = [] ∧
    CartStore.getOrders (CartStore.clear s) = CartStore.getOrders s ∧
    (∃ newOrders : List Order,
      CartStore.getOrders (CartStore.placeOrder s ov oid dl) =
        newOrders ++ CartStore.getOrders s ∧ newOrders.length ≤ 1) ∧
    CartStore.getOrders (CartStore.ordersPageConfirmClear s) = [] := by
  refine ⟨rfl, rfl, ?_, rfl⟩
  by_cases hc : s.cart = []
  · exact ⟨[], by simp [CartStore.placeOrder, CartStore.getOrders, hc], by simp⟩
  · refine ⟨[{ id := oid, datePlaced := dl,
               total := (s.cart.foldl (fun sum item => sum + item.price * (item.qty : Rat) +
                 CartStore.effShipping ov item) 0) * (11 / 10 : Rat),
               items := s.cart.map (fun item =>
                 { item with shippingCost := CartStore.effShipping ov item }) }], ?_, by simp⟩
    simp [CartStore.placeOrder, CartStore.getOrders, hc]

/-- C8 counterexample: `parseInt(qty, 10) || 1` keeps negative integers
— `addItem` with qty `-3` creates a cart line whose quantity is `-3`,
not a positive integer. -/
theorem addItem_qty_cex :
    (CartStore.addItem [] wP (some (-3))).map CartLine.qty = [-3] ∧
    ¬(1 ≤ (-3 : Int)) := by
  exact ⟨rfl, by decide⟩

/-- C8 (amended): the quantity recorded by `addItem` for a fresh product
is a nonzero integer: the `parseInt` result when that is a nonzero
integer — negative values included — and `1` when the argument is
non-numeric (`NaN`) or `0`. -/
theorem addItem_qty_spec (items : List CartLine) (p : Product) (rq : Option Int)
    (hp : ∀ i ∈ items, i.id ≠ p.id) :
    ∃ l : CartLine, CartStore.addItem items p rq = items ++ [l] ∧ l.id = p.id ∧
      l.qty ≠ 0 ∧
      (∀ n : Int, rq = some n → n ≠ 0 → l.qty = n) ∧
      ((rq = none ∨ rq = some 0) → l.qty = 1) := by
  obtain ⟨l, he, hid, hqty⟩ := addItem_not_mem_ex items p rq hp
  refine ⟨l, he, hid, ?_, ?_, ?_⟩
  · rw [hqty]
    match rq with
    | none => simp [CartStore.coerceQty]
    | some n =>
      by_cases hn : n = 0 <;> simp [CartStore.coerceQty, hn]
  · intro n hn hn0
    rw [hqty, hn]
    simp [CartStore.coerceQty, hn0]
  · intro hcase
    rcases hcase with hcase | hcase <;> rw [hqty, hcase] <;> simp [CartStore.coerceQty]

/-- Witness for `addItem_qty_spec`: the empty cart and the raw quantity
`-3`, which is kept as-is. -/
theorem addItem_qty_spec_witness :
    ∃ l : CartLine, CartStore.addItem [] wP (some (-3)) = [] ++ [l] ∧ l.id = wP.id ∧
      l.qty ≠ 0 ∧
      (∀ n : Int, (some (-3) : Option Int) = some n → n ≠ 0 → l.qty = n) ∧
      (((some (-3) : Option Int) = none ∨ (some (-3) : Option Int) = some 0) → l.qty = 1) :=
  addItem_qty_spec [] wP (some (-3)) (by decide)

/-- C9: the OS preference-change handler's guard tests key presence, not
an explicit user choice, and module initialization itself persists the
resolved theme under the key.  Starting with no stored value, a light OS
preference and no user choice ever made, the post-load OS switch to dark
is suppressed and the effective theme stays light — although the same
event fired against an absent key would have switched it. -/
theorem theme_osChange_spec :
    (ThemeStore.moduleInit ⟨none, false, false, false⟩).userChose = false ∧
    ThemeStore.hasManualChoice (ThemeStore.moduleInit ⟨none, false, false, false⟩) = true ∧
    (ThemeStore.osChange (ThemeStore.moduleInit ⟨none, false, false, false⟩) true).isDark
      = false ∧
    (ThemeStore.osChange (ThemeStore.moduleInit ⟨none, false, false, false⟩) true).userChose
      = false ∧
    (ThemeStore.osChange ⟨none, false, false, false⟩ true).isDark = true := by
  exact ⟨rfl, rfl, rfl, rfl, rfl⟩

/-- C10: the in-session password change: with the stored account found by
the session user's id and a valid new password, a wrong current password
fails with the auth error and leaves the account list completely
unchanged; a matching current password succeeds and rewrites the list so
that entries with other ids are untouched and the matched entries change
in their password field only. -/
theorem handleChangePassword_spec (users : List Account)
    (userId currentPw newPw confirmPw : String) (acc : Account)
    (hfind : users.find? (fun u => u.id == userId) = some acc)
    (hlen : 6 ≤ newPw.length) (hconf : newPw = confirmPw) :
    (acc.password ≠ currentPw →
      handleChangePassword users userId currentPw newPw confirmPw =
        (.wrongCurrent, users)) ∧
    (acc.password = currentPw →
      ∃ users2, handleChangePassword users userId currentPw newPw confirmPw =
          (.changed, users2) ∧
        users2.length = users.length ∧
        ∀ i (h1 : i < users.length) (h2 : i < users2.length),
          ((users.get ⟨i, h1⟩).id ≠ userId → users2.get ⟨i, h2⟩ = users.get ⟨i, h1⟩) ∧
          ((users.get ⟨i, h1⟩).id = userId →
            users2.get ⟨i, h2⟩ = { users.get ⟨i, h1⟩ with password := newPw })) := by
  have h1 : ¬(newPw.length < 6) := by omega
  subst hconf
  constructor
  · intro hpw
    simp [handleChangePassword, h1, hfind, hpw]
  · intro hpw
    refine ⟨users.map (fun u =>
      if u.id = userId then { u with password := newPw } else u), ?_, by simp, ?_⟩
    · simp [handleChangePassword, h1, hfind, hpw]
    · intro i hi1 hi2
      simp only [List.get_eq_getElem]
      constructor
      · intro hid
        simp [hid]
      · intro hid
        simp [hid]

/-- Witness for `handleChangePassword_spec`: amina's account, once with a
wrong current password and once with the right one. -/
theorem handleChangePassword_spec_witness :
    handleChangePassword [wAmina] "u0" "bad" "newpass1" "newpass1" =
      (.wrongCurrent, [wAmina]) ∧
    (handleChangePassword [wAmina] "u0" "secret1" "newpass1" "newpass1").1 = .changed := by
  constructor
  · exact (handleChangePassword_spec [wAmina] "u0" "bad" "newpass1" "newpass1" wAmina
      rfl (by decide) rfl).1 (by decide)
  · obtain ⟨users2, heq, -, -⟩ := (handleChangePassword_spec [wAmina] "u0" "secret1"
      "newpass1" "newpass1" wAmina rfl (by decide) rfl).2 rfl
    rw [heq]
